import Mathlib

/-!
Verification development for the doodlemania drawing-and-guessing game.

The definitions below are a shallow embedding of the multiplayer room /
game logic found in `src/App.multiplayer.tsx`,
`src/screens/MultiplayerGameScreen.tsx` (which also contains the
`LocalGameApp` pass-and-play component) and the `LobbyScreen` component.
JavaScript numbers used for timestamps and durations are embedded as `Int`
(millisecond epoch timestamps, whole-second durations); touch coordinates
are never computed with, only stored, so they are embedded as an opaque
type parameter `Coord`.
-/

namespace Doodlemania

/-! ## Data model (src/types/multiplayer, as used by the screens) -/

/-- Room lifecycle status: `waiting | playing | ended`. -/
inductive RoomStatus
  | waiting
  | playing
  | ended
deriving DecidableEq, Repr

/-- Room settings, fixed at creation. -/
structure RoomSettings where
  timer_seconds : Int
  allow_tag_team : Bool
deriving DecidableEq, Repr

/-- The shared room row. `round_start_time` is a millisecond epoch
timestamp (the result of `new Date(...).getTime()`). -/
structure Room where
  code : String
  status : RoomStatus
  settings : RoomSettings
  current_round : Int
  current_word : Option String
  drawing_team : Option Int
  round_start_time : Option Int
deriving DecidableEq, Repr

/-- A player row. `team` is `some 1`, `some 2` or `none` (unassigned). -/
structure Player where
  id : String
  name : String
  team : Option Int
  is_host : Bool
  is_ready : Bool
  is_drawing : Bool
  score : Int
deriving DecidableEq, Repr

/-- Error kinds surfaced by session actions (spec section 7). -/
inductive ActionError
  | ConfigurationMissing
  | NotFound
  | PreconditionFailed
  | TransportError
deriving DecidableEq, Repr

/-- JavaScript optional chaining `p?.f` on a boolean field: `undefined`
(absent player) is falsy. -/
def optField (p : Option Player) (f : Player → Bool) : Bool :=
  (p.map f).getD false

/-! ## LobbyScreen start gate (src/unnamed/part_000, lines 35-39 / 579-583) -/

/-- From LobbyScreen: `players.filter(p => p.team === 1)`. -/
def team1Players (players : List Player) : List Player :=
  players.filter (fun p => p.team == some 1)

/-- From LobbyScreen: `players.filter(p => p.team === 2)`. -/
def team2Players (players : List Player) : List Player :=
  players.filter (fun p => p.team == some 2)

/-- From LobbyScreen: `allReady = players.length >= 2 && players.every(p => p.is_ready)`. -/
def allReady (players : List Player) : Bool :=
  decide (players.length ≥ 2) && players.all (fun p => p.is_ready)

/-- From LobbyScreen: `canStart = currentPlayer?.is_host && allReady
  && team1Players.length >= 1 && team2Players.length >= 1`. -/
def canStart (currentPlayer : Option Player) (players : List Player) : Bool :=
  optField currentPlayer Player.is_host && allReady players
    && decide ((team1Players players).length ≥ 1)
    && decide ((team2Players players).length ≥ 1)

/-- Modelled from the spec: the start-game transition performed by the
`startGame` session action lives in the `useMultiplayer` hook, which is
not under `src/` (only its caller `LobbyScreen` and its gate `canStart`
are). Per spec section 4.3, the `waiting → playing` transition is
triggered only by the host action, gated by the lobby preconditions; on
success it selects team 1 as the first drawing team, assigns a word and
stamps `round_start_time`; otherwise the status is left unchanged and
`PreconditionFailed` is surfaced. -/
def startGame (room : Room) (currentPlayer : Option Player)
    (players : List Player) (word : String) (now : Int) :
    Room × Option ActionError :=
  if room.status = RoomStatus.waiting ∧ canStart currentPlayer players = true then
    ({ room with
        status := RoomStatus.playing
        drawing_team := some 1
        current_word := some word
        round_start_time := some now }, none)
  else
    (room, some ActionError.PreconditionFailed)

/-! ## Timer (src/App.multiplayer.tsx, lines 63-101) -/

/-- From the timer effect: `Math.floor((Date.now() - startTime) / 1000)`; JavaScript real
division followed by `Math.floor` is floor division. -/
def elapsedSeconds (now startTime : Int) : Int :=
  Int.fdiv (now - startTime) 1000

/-- From the timer effect: `Math.max(0, room.settings.timer_seconds - elapsed)`. -/
def remainingTime (now startTime timerSeconds : Int) : Int :=
  max 0 (timerSeconds - elapsedSeconds now startTime)

/-- The initial `setTimeRemaining` of the timer effect: recompute from
`round_start_time` when present, else the full duration. -/
def initialCountdown (settings : RoomSettings) (roundStartTime : Option Int)
    (now : Int) : Int :=
  match roundStartTime with
  | some t0 => remainingTime now t0 settings.timer_seconds
  | none => settings.timer_seconds

/-- The `setInterval` callback body: given the previous `timeRemaining`,
returns the new value and whether `endRound()` was submitted.
`if (prev <= 1) { if (currentPlayer?.is_host) endRound(); return
timer_seconds; } return prev - 1;`. -/
def timerTick (settings : RoomSettings) (currentPlayer : Option Player)
    (prev : Int) : Int × Bool :=
  if prev ≤ 1 then
    (settings.timer_seconds, optField currentPlayer Player.is_host)
  else
    (prev - 1, false)

/-- The countdown value after `k` one-second interval ticks, for a timer
effect that started at wall-clock time `round_start_time` itself. -/
def countdownAfter (settings : RoomSettings) (currentPlayer : Option Player)
    (t0 : Int) (k : Nat) : Int :=
  (fun v => (timerTick settings currentPlayer v).1)^[k]
    (initialCountdown settings (some t0) t0)

/-! ## Drawing: touch handlers and stroke state
(src/screens/MultiplayerGameScreen.tsx, lines 146-237) -/

/-- A canvas point; coordinates are stored, never computed with. -/
structure Point (Coord : Type) where
  x : Coord
  y : Coord
deriving DecidableEq, Repr

/-- A local stroke: `{ id, points, color, brushSize }`. -/
structure LocalPath (Coord : Type) where
  id : String
  points : List (Point Coord)
  color : String
  brushSize : Int
deriving DecidableEq, Repr

/-- A drawing event sent through `onSendDrawing` (without `player_id`,
which the relay attaches). -/
inductive DrawMsg (Coord : Type)
  | start (x y : Coord) (color : String) (brushSize : Int)
  | move (x y : Coord) (color : String) (brushSize : Int)
  | close (color : String) (brushSize : Int)
  | clear (color : String) (brushSize : Int)
  | undo (color : String) (brushSize : Int)
deriving DecidableEq, Repr

/-- The component state the touch handlers read and write:
`localPaths` and `currentPath`. -/
structure DrawState (Coord : Type) where
  localPaths : List (LocalPath Coord)
  currentPath : Option (LocalPath Coord)
deriving DecidableEq, Repr

/-- Handler `handleTouchStart`: guarded by `isDrawing`; opens a fresh
`currentPath` holding the single touched point and sends a `start`
event. -/
def handleTouchStart {Coord : Type} (isDrawing : Bool) (selectedColor : String)
    (brushSize : Int) (pathId : String) (x y : Coord) (st : DrawState Coord) :
    DrawState Coord × List (DrawMsg Coord) :=
  if isDrawing = false then (st, [])
  else
    ({ st with currentPath := some ⟨pathId, [⟨x, y⟩], selectedColor, brushSize⟩ },
      [DrawMsg.start x y selectedColor brushSize])

/-- Handler `handleTouchMove`: guarded by `isDrawing` and a non-null
`currentPath`; appends the point and sends a `move` event. -/
def handleTouchMove {Coord : Type} (isDrawing : Bool) (selectedColor : String)
    (brushSize : Int) (x y : Coord) (st : DrawState Coord) :
    DrawState Coord × List (DrawMsg Coord) :=
  if isDrawing = false then (st, [])
  else
    match st.currentPath with
    | none => (st, [])
    | some cp =>
        ({ st with currentPath := some { cp with points := cp.points ++ [⟨x, y⟩] } },
          [DrawMsg.move x y selectedColor brushSize])

/-- Handler `handleTouchEnd`: guarded by `isDrawing` and a non-null
`currentPath`; moves the current path into `localPaths` and sends an
`end` event. -/
def handleTouchEnd {Coord : Type} (isDrawing : Bool) (selectedColor : String)
    (brushSize : Int) (st : DrawState Coord) :
    DrawState Coord × List (DrawMsg Coord) :=
  if isDrawing = false then (st, [])
  else
    match st.currentPath with
    | none => (st, [])
    | some cp =>
        ({ localPaths := st.localPaths ++ [cp], currentPath := none },
          [DrawMsg.close selectedColor brushSize])

/-- Handler `handleUndo`: `setLocalPaths(prev => prev.slice(0, -1))` - JavaScript
`slice(0, -1)` drops the last element (and is the empty list on an
empty list). -/
def handleUndo {Coord : Type} (localPaths : List (LocalPath Coord)) :
    List (LocalPath Coord) :=
  localPaths.dropLast

/-- One raw pointer event of a canvas gesture (the React Native
responder callbacks Grant / Move / Release). -/
inductive TouchInput (Coord : Type)
  | start (x y : Coord)
  | move (x y : Coord)
  | release
deriving DecidableEq, Repr

/-- Dispatch one pointer event to the matching touch handler. -/
def touchStep {Coord : Type} (isDrawing : Bool) (color : String) (bs : Int)
    (pathId : String) (st : DrawState Coord) :
    TouchInput Coord → DrawState Coord × List (DrawMsg Coord)
  | TouchInput.start x y => handleTouchStart isDrawing color bs pathId x y st
  | TouchInput.move x y => handleTouchMove isDrawing color bs x y st
  | TouchInput.release => handleTouchEnd isDrawing color bs st

/-- Replay an ordered sequence of pointer events through the touch
handlers, collecting the drawing events sent through `onSendDrawing`. -/
def runTouch {Coord : Type} (isDrawing : Bool) (color : String) (bs : Int)
    (pathId : String) (st : DrawState Coord) :
    List (TouchInput Coord) → DrawState Coord × List (DrawMsg Coord)
  | [] => (st, [])
  | e :: es =>
      let r := touchStep isDrawing color bs pathId st e
      let r2 := runTouch isDrawing color bs pathId r.1 es
      (r2.1, r.2 ++ r2.2)

/-! ## LocalGameApp (pass-and-play component concatenated into
src/screens/MultiplayerGameScreen.tsx) -/

/-- A completed stroke of the local game: `{ d, color, strokeWidth }`. -/
structure PathData where
  d : String
  color : String
  strokeWidth : Int
deriving DecidableEq, Repr

/-- Handler `undoLast`: `setPaths(prev => prev.slice(0, -1))`. -/
def undoLast (paths : List PathData) : List PathData :=
  paths.dropLast

/-- The LocalGameApp round state touched by `handleGuessCorrect`. -/
structure LocalGameState where
  scores : List Int
  currentTeam : Nat
  roundNumber : Int
deriving DecidableEq, Repr

/-- Handler `handleGuessCorrect` (LocalGameApp, lines 1259-1282):
`newScores[currentTeam] += 1`, `setCurrentTeam(prev => (prev + 1) %
settings.teamCount)`, `setRoundNumber(prev => prev + 1)`. The score
update is embedded for an in-range `currentTeam` (in the component
`currentTeam` always indexes the scores array). -/
def handleGuessCorrect (teamCount : Nat) (s : LocalGameState) : LocalGameState :=
  { scores := s.scores.set s.currentTeam (s.scores.getD s.currentTeam 0 + 1)
    currentTeam := (s.currentTeam + 1) % teamCount
    roundNumber := s.roundNumber + 1 }

/-! ## Chat / correct-guess matching -/

/-- JavaScript `String.prototype.trim`, modelled on the character list:
drop whitespace from both ends. -/
def trimChars (l : List Char) : List Char :=
  ((l.dropWhile Char.isWhitespace).reverse.dropWhile Char.isWhitespace).reverse

/-- JavaScript `s.trim()` as a `String` operation. -/
def jsTrim (s : String) : String :=
  String.mk (trimChars s.data)

/-- JavaScript `s.toLowerCase()` as a `String` operation (character-wise
case folding). -/
def jsToLower (s : String) : String :=
  String.mk (s.data.map Char.toLower)

/-- Handler `handleSendChat` (src/screens/MultiplayerGameScreen.tsx, lines
240-245): `if (!chatInput.trim()) return; onSendChat(chatInput.trim())` -
returns the text actually sent, or `none` when the trimmed input is
empty. -/
def handleSendChat (chatInput : String) : Option String :=
  if jsTrim chatInput = "" then none else some (jsTrim chatInput)

/-- Modelled from the spec: the matching that sets `is_correct_guess`
lives in the `sendChat` action of the `useMultiplayer` hook, which is
not under `src/` (only its caller `handleSendChat` is). Per spec
sections 3 and 4.3, the receiving side compares the message text against
the active secret word case-insensitively and trimmed, and an exact
match marks the message `is_correct_guess = true`. -/
def markCorrectGuess (currentWord text : String) : Bool :=
  jsToLower (jsTrim text) == jsToLower (jsTrim currentWord)

/-! ## Session actions gated by backend configuration
(src/App.multiplayer.tsx, lines 121-144) -/

/-- The observable outcome of a session-action handler: whether a
user-facing notice was raised, whether the backend action was invoked at
all, and the value returned to the caller. -/
structure SessionOutcome (α : Type) where
  alerted : Bool
  backendAttempted : Bool
  result : α
deriving Repr

/-- Handler `handleCreateRoom`: when `isSupabaseConfigured()` is false, show the
"Setup Required" alert and return `null` without calling `createRoom`;
otherwise delegate to `createRoom(playerName)`. -/
def handleCreateRoom (configured : Bool) (createRoom : String → Option Room)
    (playerName : String) : SessionOutcome (Option Room) :=
  if configured = false then
    { alerted := true, backendAttempted := false, result := none }
  else
    { alerted := false, backendAttempted := true, result := createRoom playerName }

/-- Handler `handleJoinRoom`: when `isSupabaseConfigured()` is false, show the
"Setup Required" alert and return `false` without calling `joinRoom`;
otherwise delegate to `joinRoom(code, playerName)`. -/
def handleJoinRoom (configured : Bool) (joinRoom : String → String → Bool)
    (code playerName : String) : SessionOutcome Bool :=
  if configured = false then
    { alerted := true, backendAttempted := false, result := false }
  else
    { alerted := false, backendAttempted := true, result := joinRoom code playerName }

/-! ## Theorems -/

/-- The lobby gate `canStart` holds exactly when the current player is
the host, there are at least 2 players, every player is ready, and both
teams have at least one member. -/
theorem canStart_iff (cp : Option Player) (players : List Player) :
    canStart cp players = true ↔
      (optField cp Player.is_host = true
        ∧ 2 ≤ players.length
        ∧ (∀ p ∈ players, p.is_ready = true)
        ∧ (∃ p ∈ players, p.team = some 1)
        ∧ (∃ p ∈ players, p.team = some 2)) := by
  unfold canStart allReady team1Players team2Players
  simp only [Bool.and_eq_true, decide_eq_true_eq, List.all_eq_true,
    Nat.one_le_iff_ne_zero, ← Nat.pos_iff_ne_zero, List.length_pos,
    ne_eq, List.filter_eq_nil_iff, not_forall, beq_iff_eq]
  constructor
  · rintro ⟨⟨⟨hh, h2, hr⟩, ht1⟩, ht2⟩
    refine ⟨hh, h2, hr, ?_, ?_⟩
    · obtain ⟨p, hp, hne⟩ := ht1
      exact ⟨p, hp, by simpa using hne⟩
    · obtain ⟨p, hp, hne⟩ := ht2
      exact ⟨p, hp, by simpa using hne⟩
  · rintro ⟨hh, h2, hr, ⟨p1, hp1, he1⟩, ⟨p2, hp2, he2⟩⟩
    exact ⟨⟨⟨hh, h2, hr⟩, ⟨p1, hp1, by simp [he1]⟩⟩, ⟨p2, hp2, by simp [he2]⟩⟩

/-- C1: the `startGame` action moves the room to `playing` (with no
error) exactly when the room is `waiting`, the actor is the host, there
are at least 2 players, all players are ready and both teams are
non-empty; when the lobby gate fails the room is left unchanged and
`PreconditionFailed` is produced. -/
theorem c1_start_game_gate (room : Room) (cp : Option Player)
    (players : List Player) (word : String) (now : Int) :
    (((startGame room cp players word now).2 = none
        ∧ (startGame room cp players word now).1.status = RoomStatus.playing) ↔
      (room.status = RoomStatus.waiting
        ∧ optField cp Player.is_host = true
        ∧ 2 ≤ players.length
        ∧ (∀ p ∈ players, p.is_ready = true)
        ∧ (∃ p ∈ players, p.team = some 1)
        ∧ (∃ p ∈ players, p.team = some 2)))
    ∧ (canStart cp players = false →
        (startGame room cp players word now).1 = room
          ∧ (startGame room cp players word now).2 = some ActionError.PreconditionFailed) := by
  unfold startGame
  split
  case isTrue h =>
    obtain ⟨hw, hc⟩ := h
    constructor
    · constructor
      · intro _
        exact ⟨hw, (canStart_iff cp players).mp hc⟩
      · intro _
        exact ⟨rfl, rfl⟩
    · intro hfalse
      rw [hc] at hfalse
      cases hfalse
  case isFalse h =>
    constructor
    · constructor
      · rintro ⟨habs, -⟩
        cases habs
      · rintro ⟨hw, hcond⟩
        exact absurd ⟨hw, (canStart_iff cp players).mpr hcond⟩ h
    · intro _
      exact ⟨rfl, rfl⟩

/-- The countdown value after `k` ideal ticks, written as the code's
per-round duration minus the tick count, holds for every tick strictly
before expiry. -/
theorem countdownAfter_eq_sub (s : RoomSettings) (cp : Option Player) (t0 : Int)
    (k : Nat) (hk : (k : Int) < s.timer_seconds) :
    countdownAfter s cp t0 k = s.timer_seconds - k := by
  induction k with
  | zero =>
    simp [countdownAfter, initialCountdown, remainingTime, elapsedSeconds]
    omega
  | succ n ih =>
    have hn : (n : Int) < s.timer_seconds := by push_cast at hk; omega
    have hstep : countdownAfter s cp t0 (n + 1) =
        (timerTick s cp (countdownAfter s cp t0 n)).1 := by
      simp [countdownAfter, Function.iterate_succ_apply']
    rw [hstep, ih hn, timerTick]
    have h2 : ¬ (s.timer_seconds - (n : Int) ≤ 1) := by push_cast at hk; omega
    simp [h2]
    omega

/-- C2: the interval callback submits the round-end action exactly
when the countdown is about to reach zero (`prev <= 1`) and the client's
current player is the host; a client whose current player is not the
host (or who has no current player) never submits round-end. -/
theorem c2_host_only_round_end (settings : RoomSettings) (cp : Option Player)
    (prev : Int) :
    ((timerTick settings cp prev).2 = true ↔
        prev ≤ 1 ∧ optField cp Player.is_host = true)
    ∧ (optField cp Player.is_host = false → (timerTick settings cp prev).2 = false) := by
  unfold timerTick
  by_cases h : prev ≤ 1 <;> simp [h]

/-- C3 counterexample: the claim "while the room status is playing,
every value taken by a client's local countdown equals the clamped
recomputation from `round_start_time`" is false on the code: for a room
with `timer_seconds = 2` whose timer effect starts at
`round_start_time = 0`, after 2 one-second ticks the countdown holds
`timer_seconds = 2` (the interval callback resets it for the next round)
while the clamped recomputation at that moment is `0`. -/
theorem c3_countdown_counterexample :
    countdownAfter ⟨2, false⟩ none 0 2 ≠ remainingTime (0 + 1000 * 2) 0 2 := by
  decide

/-- C3 amended: the countdown is initialized from the shared
`round_start_time` when the timer effect runs, and each interval tick
decrements it by one, so for every tick strictly before expiry its value
agrees with the clamped recomputation
`max(0, timer_seconds - elapsed-since-round_start_time)`; at expiry the
callback resets it to the full `timer_seconds` (pending the host's
round-end state change) instead of holding the recomputed `0`. -/
theorem c3_countdown_matches_recomputation_before_expiry (s : RoomSettings)
    (cp : Option Player) (t0 : Int) (k : Nat)
    (hk : (k : Int) < s.timer_seconds) :
    countdownAfter s cp t0 k = remainingTime (t0 + 1000 * k) t0 s.timer_seconds := by
  rw [countdownAfter_eq_sub s cp t0 k hk]
  unfold remainingTime elapsedSeconds
  have he : t0 + 1000 * (k : Int) - t0 = 1000 * k := by ring
  rw [he, Int.mul_fdiv_cancel_left _ (by norm_num)]
  omega

/-- C3 witness: the amended statement at a concrete input. -/
theorem c3_witness :
    ((2 : Nat) : Int) < (60 : Int) ∧
      countdownAfter ⟨60, false⟩ none 0 2 = remainingTime (0 + 1000 * 2) 0 60 :=
  ⟨by decide, c3_countdown_matches_recomputation_before_expiry ⟨60, false⟩ none 0 2 (by decide)⟩

/-- C4: the remaining time computed by the timer effect at wall-clock
time `t` is `max(0, timer_seconds - floor((t - round_start_time) / 1000))`,
yields `15` at `T0 + 45s` and `0` at `T0 + 70s` for a 60-second round, and
is never negative. -/
theorem c4_remaining_time (t0 t d : Int) :
    remainingTime (t0 + 45000) t0 60 = 15
    ∧ remainingTime (t0 + 70000) t0 60 = 0
    ∧ 0 ≤ remainingTime t t0 d
    ∧ remainingTime t t0 d = max 0 (d - Int.fdiv (t - t0) 1000) := by
  refine ⟨?_, ?_, ?_, rfl⟩
  · unfold remainingTime elapsedSeconds
    have he : t0 + 45000 - t0 = 45000 := by ring
    rw [he]
    decide
  · unfold remainingTime elapsedSeconds
    have he : t0 + 70000 - t0 = 70000 := by ring
    rw [he]
    decide
  · unfold remainingTime
    exact le_max_left 0 _

/-- C7: undo removes exactly the most recently completed stroke (the
last element of the stroke collection), leaving every earlier stroke
unchanged, and is a no-op on an empty stroke collection - both for
`handleUndo` of the multiplayer game screen and for `undoLast` of
`LocalGameApp`. -/
theorem c7_undo_removes_last :
    (∀ (Coord : Type) (ps : List (LocalPath Coord)) (p : LocalPath Coord),
        handleUndo (ps ++ [p]) = ps)
    ∧ (∀ (Coord : Type), handleUndo ([] : List (LocalPath Coord)) = [])
    ∧ (∀ (ps : List PathData) (p : PathData), undoLast (ps ++ [p]) = ps)
    ∧ undoLast [] = [] := by
  refine ⟨?_, ?_, ?_, rfl⟩
  · intro Coord ps p
    simp [handleUndo]
  · intro Coord
    rfl
  · intro ps p
    simp [undoLast]

/-- C5: a chat message is marked `is_correct_guess = true` exactly
when its trimmed, case-folded text equals the trimmed, case-folded
active word; for the word "Elephant" the guess " elephant " (which
`handleSendChat` sends as "elephant") is marked correct and the guess
"elephants" is not. -/
theorem c5_correct_guess_matching :
    (∀ (w t : String),
        markCorrectGuess w t = true ↔ jsToLower (jsTrim t) = jsToLower (jsTrim w))
    ∧ handleSendChat " elephant " = some "elephant"
    ∧ markCorrectGuess "Elephant" " elephant " = true
    ∧ markCorrectGuess "Elephant" "elephants" = false := by
  refine ⟨?_, by decide, by decide, by decide⟩
  intro w t
  simp [markCorrectGuess]

/-- C6: one `handleGuessCorrect` increments the scoring team's score
by exactly 1 and every other team's score not at all, rotates the
drawing turn to the next (different) team, and increments the round
counter by exactly 1. -/
theorem c6_correct_guess_round_end (teamCount : Nat) (s : LocalGameState)
    (h1 : s.currentTeam < s.scores.length)
    (h2 : s.currentTeam < teamCount) (h3 : 2 ≤ teamCount) :
    ((handleGuessCorrect teamCount s).scores.getD s.currentTeam 0
        = s.scores.getD s.currentTeam 0 + 1)
    ∧ (∀ j, j ≠ s.currentTeam →
        (handleGuessCorrect teamCount s).scores.getD j 0 = s.scores.getD j 0)
    ∧ (handleGuessCorrect teamCount s).scores.length = s.scores.length
    ∧ (handleGuessCorrect teamCount s).currentTeam ≠ s.currentTeam
    ∧ (handleGuessCorrect teamCount s).currentTeam = (s.currentTeam + 1) % teamCount
    ∧ (handleGuessCorrect teamCount s).roundNumber = s.roundNumber + 1 := by
  refine ⟨?_, ?_, ?_, ?_, rfl, rfl⟩
  · simp [handleGuessCorrect, List.getD_eq_getElem?_getD]
    rw [List.getElem?_set_self]
    · simp [List.getElem?_eq_getElem h1]
    · exact h1
  · intro j hj
    simp [handleGuessCorrect, List.getD_eq_getElem?_getD]
    rw [List.getElem?_set_ne (fun he => hj he.symm)]
  · simp [handleGuessCorrect]
  · simp only [handleGuessCorrect]
    intro he
    rcases Nat.lt_or_ge (s.currentTeam + 1) teamCount with hlt | hge
    · rw [Nat.mod_eq_of_lt hlt] at he
      omega
    · have heq : s.currentTeam + 1 = teamCount := by omega
      rw [heq, Nat.mod_self] at he
      omega

/-- C6 witness: a two-team game at team 0 with scores `[3, 5]`. -/
theorem c6_witness :
    ((handleGuessCorrect 2 ⟨[3, 5], 0, 1⟩).scores.getD 0 0
        = (LocalGameState.mk [3, 5] 0 1).scores.getD 0 0 + 1)
    ∧ (∀ j, j ≠ (LocalGameState.mk [3, 5] 0 1).currentTeam →
        (handleGuessCorrect 2 ⟨[3, 5], 0, 1⟩).scores.getD j 0
          = (LocalGameState.mk [3, 5] 0 1).scores.getD j 0)
    ∧ (handleGuessCorrect 2 ⟨[3, 5], 0, 1⟩).scores.length
        = (LocalGameState.mk [3, 5] 0 1).scores.length
    ∧ (handleGuessCorrect 2 ⟨[3, 5], 0, 1⟩).currentTeam
        ≠ (LocalGameState.mk [3, 5] 0 1).currentTeam
    ∧ (handleGuessCorrect 2 ⟨[3, 5], 0, 1⟩).currentTeam
        = ((LocalGameState.mk [3, 5] 0 1).currentTeam + 1) % 2
    ∧ (handleGuessCorrect 2 ⟨[3, 5], 0, 1⟩).roundNumber
        = (LocalGameState.mk [3, 5] 0 1).roundNumber + 1 :=
  c6_correct_guess_round_end 2 ⟨[3, 5], 0, 1⟩ (by decide) (by decide) (by decide)

/-- Replaying the `move*` tail of a gesture followed by the release: the
open stroke accumulates exactly the moved-to points in order and is then
closed onto `localPaths`. -/
theorem runTouch_moves {Coord : Type} (color : String) (bs : Int) (pathId : String)
    (paths : List (LocalPath Coord)) (cp : LocalPath Coord)
    (ms : List (Point Coord)) :
    (runTouch true color bs pathId ⟨paths, some cp⟩
        (ms.map (fun q => TouchInput.move q.x q.y) ++ [TouchInput.release])).1
      = ⟨paths ++ [{ cp with points := cp.points ++ ms }], none⟩ := by
  induction ms generalizing cp with
  | nil =>
    simp [runTouch, touchStep, handleTouchEnd]
  | cons m rest ih =>
    simp only [List.map_cons, List.cons_append, runTouch, touchStep,
      handleTouchMove, Bool.true_eq_false, if_false, List.append_eq]
    rw [ih]
    simp

/-- C8: for a single-sender gesture `start (x0, y0), move (x1, y1),
..., end` processed by the touch handlers of the current drawer, the
recorded stroke's point list is exactly the supplied coordinate
sequence, in order. -/
theorem c8_gesture_records_points {Coord : Type} (color : String) (bs : Int)
    (pathId : String) (paths : List (LocalPath Coord)) (p : Point Coord)
    (moves : List (Point Coord)) :
    (runTouch true color bs pathId ⟨paths, none⟩
        (TouchInput.start p.x p.y ::
          (moves.map (fun q => TouchInput.move q.x q.y) ++ [TouchInput.release]))).1
      = ⟨paths ++ [⟨pathId, p :: moves, color, bs⟩], none⟩ := by
  simp only [runTouch, touchStep, handleTouchStart, Bool.true_eq_false, if_false]
  rw [runTouch_moves]
  simp

/-- C10: when the current player's `is_drawing` flag is false, every
touch handler leaves the stroke state (`localPaths` and `currentPath`)
unchanged and sends no drawing event, and so does any sequence of
pointer events. -/
theorem c10_non_drawer_cannot_draw {Coord : Type} (color : String) (bs : Int)
    (pathId : String) (st : DrawState Coord) :
    (∀ (x y : Coord), handleTouchStart false color bs pathId x y st = (st, []))
    ∧ (∀ (x y : Coord), handleTouchMove false color bs x y st = (st, []))
    ∧ handleTouchEnd false color bs st = (st, [])
    ∧ (∀ (inputs : List (TouchInput Coord)),
        runTouch false color bs pathId st inputs = (st, [])) := by
  refine ⟨fun x y => rfl, fun x y => rfl, rfl, ?_⟩
  intro inputs
  induction inputs with
  | nil => rfl
  | cons e es ih =>
    cases e <;> simp [runTouch, touchStep, handleTouchStart, handleTouchMove,
      handleTouchEnd, ih]

/-- C9: with backend credentials absent, `handleCreateRoom` and
`handleJoinRoom` raise the user-facing setup notice and return `null` /
`false` without invoking any backend action. -/
theorem c9_missing_config_degrades_gracefully
    (createRoom : String → Option Room) (joinRoom : String → String → Bool)
    (code playerName : String) :
    (handleCreateRoom false createRoom playerName).alerted = true
    ∧ (handleCreateRoom false createRoom playerName).backendAttempted = false
    ∧ (handleCreateRoom false createRoom playerName).result = none
    ∧ (handleJoinRoom false joinRoom code playerName).alerted = true
    ∧ (handleJoinRoom false joinRoom code playerName).backendAttempted = false
    ∧ (handleJoinRoom false joinRoom code playerName).result = false := by
  exact ⟨rfl, rfl, rfl, rfl, rfl, rfl⟩

end Doodlemania
